import Mathlib

/-!
Shallow embedding of `anime.py`, a sequential fetch/merge/persist pipeline.

External effects (HTTP responses, parsed HTML anchors, the filesystem) are
modelled explicitly: every response a function can observe is an input, the
filesystem is a value threaded through, and Python exceptions are modelled
with `Except` (an `Except.error` value marks an uncaught exception escaping
the modelled function).  Python `None` signals become `Option.none`.
-/

/-- The values Python's `json` decoding produces (`dict`s keep insertion
order, so objects are association lists). -/
inductive PyJson where
  | null
  | bool (b : Bool)
  | int (n : Int)
  | str (s : String)
  | list (xs : List PyJson)
  | obj (fields : List (String × PyJson))

/-- Python truthiness (`bool(v)`) of a JSON-decoded value. -/
def pyTruthy : PyJson → Bool
  | .null => false
  | .bool b => b
  | .int n => n != 0
  | .str s => s != ""
  | .list xs => !xs.isEmpty
  | .obj kvs => !kvs.isEmpty

/-- Python `d.get(k)` on a decoded JSON object: first binding wins, absent
key gives `none`. -/
def dictGet (d : List (String × PyJson)) (k : String) : Option PyJson :=
  match d.find? (fun e => e.1 == k) with
  | some e => some e.2
  | none => none

/-- Python `d[k]` on a decoded JSON object: raises `KeyError` when absent. -/
def keyIndex (d : List (String × PyJson)) (k : String) : Except String PyJson :=
  match dictGet d k with
  | some v => Except.ok v
  | none => Except.error ("KeyError: " ++ k)

/-- Python `v[k]` with a string key: only objects support it, anything else
raises `TypeError`. -/
def pyIndex (v : PyJson) (k : String) : Except String PyJson :=
  match v with
  | .obj d => keyIndex d k
  | _ => Except.error "TypeError"

/-- Python `str(v)` as interpolated into f-string URLs.  Only `None`,
booleans, numbers and strings are rendered faithfully; container renderings
are not exercised by the pipeline (a non-string title crashes before any
interpolation result is consumed). -/
def pyStr : PyJson → String
  | .null => "None"
  | .bool b => if b then "True" else "False"
  | .int n => toString n
  | .str s => s
  | .list _ => "<list>"
  | .obj _ => "<dict>"

/-- Python `str(x)` of an optional string (an absent HTML attribute prints
as `None` inside f-strings). -/
def optStr : Option String → String
  | none => "None"
  | some s => s

/-- The whitespace characters Python's `str.strip()` removes (the ASCII
ones; the pipeline's data is ASCII). -/
def pyIsSpace (c : Char) : Bool :=
  c = ' ' || c = '\t' || c = '\n' || c = '\r' || c = '\x0b' || c = '\x0c'

/-- Python `s.strip()`: leading and trailing whitespace removed. -/
def pyStrip (s : String) : String :=
  ⟨((s.data.dropWhile pyIsSpace).reverse.dropWhile pyIsSpace).reverse⟩

/-- Python `s.lower()` (ASCII case folding; the pipeline's titles are
compared after this fold and the claims only exercise ASCII). -/
def pyLower (s : String) : String :=
  ⟨s.data.map (fun c => if c.toNat ≥ 65 && c.toNat ≤ 90 then Char.ofNat (c.toNat + 32) else c)⟩

/-- Python `s.replace(" ", "_")` — the folder-name sanitization. -/
def pyReplaceSpace (s : String) : String :=
  ⟨s.data.map (fun c => if c = ' ' then '_' else c)⟩

/-- Digit run of `int(...)`: a non-empty string of decimal digits. -/
def allDigits : List Char → Bool
  | [] => false
  | cs => cs.all Char.isDigit

/-- Decimal value of a digit run. -/
def digitsVal (cs : List Char) : Nat :=
  cs.foldl (fun acc c => acc * 10 + (c.toNat - 48)) 0

/-- Python `int(s)` on a string (as in `int(a.get("data-number") or 0)`):
surrounding whitespace is ignored, an optional sign precedes decimal
digits; anything else raises `ValueError`.  (Underscore digit separators
and non-ASCII digits are not modelled.) -/
def pyIntOfString (s : String) : Except String Int :=
  match (pyStrip s).data with
  | '-' :: ds => if allDigits ds then Except.ok (-(digitsVal ds : Int)) else Except.error "ValueError"
  | '+' :: ds => if allDigits ds then Except.ok (digitsVal ds : Int) else Except.error "ValueError"
  | ds => if allDigits ds then Except.ok (digitsVal ds : Int) else Except.error "ValueError"

/-- JSON string escaping as `json.dump(..., ensure_ascii=False)` performs
it: quotes and backslashes escaped, common control characters escaped,
everything else written literally.  (`\uXXXX` escapes for the remaining
control characters are not modelled.) -/
def jsonEscapeChar (c : Char) : String :=
  if c = '"' then "\\\""
  else if c = '\\' then "\\\\"
  else if c = '\n' then "\\n"
  else if c = '\t' then "\\t"
  else if c = '\r' then "\\r"
  else String.singleton c

/-- A JSON string literal, escaped and quoted. -/
def jsonEscape (s : String) : String :=
  "\"" ++ String.join (s.data.map jsonEscapeChar) ++ "\""

/-- Indentation prefix: `ind` spaces. -/
def indentStr (ind : Nat) : String :=
  String.join (List.replicate ind " ")

mutual

/-- Pretty-printing of `json.dump(data, f, indent=2, ensure_ascii=False)`
at nesting indentation `ind`. -/
def pyDumpsAt : Nat → PyJson → String
  | _, .null => "null"
  | _, .bool b => if b then "true" else "false"
  | _, .int n => toString n
  | _, .str s => jsonEscape s
  | ind, .list xs =>
    match xs with
    | [] => "[]"
    | _ => "[\n" ++ pyDumpsItemsL (ind + 2) xs ++ "\n" ++ indentStr ind ++ "]"
  | ind, .obj kvs =>
    match kvs with
    | [] => "\x7b\x7d"
    | _ => "\x7b\n" ++ pyDumpsItemsO (ind + 2) kvs ++ "\n" ++ indentStr ind ++ "\x7d"

/-- Comma-and-newline separated array items at indentation `ind`. -/
def pyDumpsItemsL : Nat → List PyJson → String
  | _, [] => ""
  | ind, [x] => indentStr ind ++ pyDumpsAt ind x
  | ind, x :: y :: xs =>
    indentStr ind ++ pyDumpsAt ind x ++ ",\n" ++ pyDumpsItemsL ind (y :: xs)

/-- Comma-and-newline separated object members at indentation `ind`. -/
def pyDumpsItemsO : Nat → List (String × PyJson) → String
  | _, [] => ""
  | ind, [kv] => indentStr ind ++ jsonEscape kv.1 ++ ": " ++ pyDumpsAt ind kv.2
  | ind, kv :: kv2 :: kvs =>
    indentStr ind ++ jsonEscape kv.1 ++ ": " ++ pyDumpsAt ind kv.2 ++ ",\n" ++
      pyDumpsItemsO ind (kv2 :: kvs)

end

/-- Serialization exactly as `save_json` performs it. -/
def pyDumps (v : PyJson) : String := pyDumpsAt 0 v

/-- The filesystem as the script observes it: the set of directories that
exist (a list, membership is what matters) and the files, newest binding
first, keyed by (folder, filename) — `os.path.join(folder, filename)`. -/
structure FS where
  dirs : List String
  files : List ((String × String) × String)
deriving DecidableEq

/-- A filesystem with no output yet. -/
def emptyFS : FS := ⟨[], []⟩

/-- `os.makedirs(folder, exist_ok=True)`. -/
def makedirs (fs : FS) (folder : String) : FS :=
  if folder ∈ fs.dirs then fs else { fs with dirs := folder :: fs.dirs }

/-- The bytes currently stored at `folder/filename`, if the file exists. -/
def fileContent (fs : FS) (folder filename : String) : Option String :=
  (fs.files.find? (fun e => e.1 == (folder, filename))).map (fun e => e.2)

/-- `save_json(data, folder, filename)`: ensure the folder exists, then
overwrite `folder/filename` with the pretty-printed JSON. -/
def save_json (data : PyJson) (folder filename : String) (fs : FS) : FS :=
  let fs1 := makedirs fs folder
  { fs1 with files := ((folder, filename), pyDumps data) :: fs1.files }

/-- The normalized metadata record built by `fetch_jikan_details` (field
order follows the source's dict literal).  Fields read with `.get` carry
`Option PyJson` (`none` = key absent, serialized as `null`). -/
structure Meta where
  mal_id : Int
  title : PyJson
  synopsis : Option PyJson
  «type» : Option PyJson
  episodes : Option PyJson
  status : Option PyJson
  rating : Option PyJson
  score : Option PyJson
  rank : Option PyJson
  popularity : Option PyJson
  members : Option PyJson
  favorites : Option PyJson
  duration : Option PyJson
  season : Option PyJson
  year : Option PyJson
  studios : List PyJson
  genres : List PyJson
  themes : List PyJson
  demographics : List PyJson
  images : PyJson

/-- The dict `fetch_jikan_details` builds, as serialized by `save_json`. -/
def Meta.toJson (m : Meta) : PyJson :=
  .obj [("mal_id", .int m.mal_id), ("title", m.title),
    ("synopsis", m.synopsis.getD .null), ("type", m.«type».getD .null),
    ("episodes", m.episodes.getD .null), ("status", m.status.getD .null),
    ("rating", m.rating.getD .null), ("score", m.score.getD .null),
    ("rank", m.rank.getD .null), ("popularity", m.popularity.getD .null),
    ("members", m.members.getD .null), ("favorites", m.favorites.getD .null),
    ("duration", m.duration.getD .null), ("season", m.season.getD .null),
    ("year", m.year.getD .null), ("studios", .list m.studios),
    ("genres", .list m.genres), ("themes", .list m.themes),
    ("demographics", .list m.demographics), ("images", m.images)]

/-- The title projection `details.get("title_english") or details["title"]`:
a truthy English title wins, otherwise indexing the default title (which
raises `KeyError` when that key is absent). -/
def computeTitle (d : List (String × PyJson)) : Except String PyJson :=
  match dictGet d "title_english" with
  | some v => if pyTruthy v then Except.ok v else keyIndex d "title"
  | none => keyIndex d "title"

/-- The comprehension `[s["name"] for s in details.get(k, [])]`: an absent
key yields `[]`, a non-list value raises `TypeError` when iterated, and
each element is indexed at `"name"` (raising when it is not an object with
that key). -/
def namesOf (d : List (String × PyJson)) (k : String) : Except String (List PyJson) :=
  match dictGet d k with
  | none => Except.ok []
  | some (.list xs) => xs.mapM (fun s => pyIndex s "name")
  | some _ => Except.error "TypeError"

/-- The record construction of `fetch_jikan_details` lines 68-89, which
runs OUTSIDE the function's `try` block.  Fallible projections are
evaluated in the source's dict-literal order: title first, then the
taxonomy comprehensions, then `details["images"]["jpg"]`. -/
def buildMeta (mal_id : Int) (details : PyJson) : Except String Meta :=
  match details with
  | .obj d =>
    (computeTitle d).bind (fun title =>
    (namesOf d "studios").bind (fun studios =>
    (namesOf d "genres").bind (fun genres =>
    (namesOf d "themes").bind (fun themes =>
    (namesOf d "demographics").bind (fun demographics =>
    ((keyIndex d "images").bind (fun im => pyIndex im "jpg")).bind (fun images =>
      Except.ok { mal_id := mal_id
                  title := title
                  synopsis := dictGet d "synopsis"
                  «type» := dictGet d "type"
                  episodes := dictGet d "episodes"
                  status := dictGet d "status"
                  rating := dictGet d "rating"
                  score := dictGet d "score"
                  rank := dictGet d "rank"
                  popularity := dictGet d "popularity"
                  members := dictGet d "members"
                  favorites := dictGet d "favorites"
                  duration := dictGet d "duration"
                  season := dictGet d "season"
                  year := dictGet d "year"
                  studios := studios
                  genres := genres
                  themes := themes
                  demographics := demographics
                  images := images }))))))
  | _ => Except.error "AttributeError"

/-- The `try` block of `fetch_jikan_details`:
`requests.get(...).json()["data"]` with every exception caught.  The input
is the outcome of the HTTP-and-JSON-decode step (`Except.error` = any
exception there); indexing `["data"]` on a non-object or without the key
also raises inside the `try`, hence `none`. -/
def tryGetData (resp : Except Unit PyJson) : Option PyJson :=
  match resp with
  | .error _ => none
  | .ok (.obj kvs) => dictGet kvs "data"
  | .ok _ => none

/-- `fetch_jikan_details(mal_id)` given the raw response outcome `resp`:
`Except.ok none` is the explicit "no result" return, `Except.ok (some m)`
the normalized record, `Except.error` an uncaught Python exception. -/
def fetch_jikan_details (mal_id : Int) (resp : Except Unit PyJson) :
    Except String (Option Meta) :=
  match tryGetData resp with
  | none => Except.ok none
  | some details => (buildMeta mal_id details).map some

/-- Whether a Detail Resolver outcome is a successfully resolved record. -/
def resolved (r : Except String (Option Meta)) : Bool :=
  match r with
  | .ok (some _) => true
  | _ => false

/-- A search-result anchor (`a.film-poster-ahref`) as the scraper reads
it: the `title` attribute, the `data-id` attribute, and the nested `img`
element (`none` = no `img`; `some none` = an `img` without `data-src`;
`some (some u)` = an `img` with `data-src` `u`). -/
structure Anchor where
  title : Option String
  dataId : Option String
  img : Option (Option String)
deriving DecidableEq

/-- The match record `resolve_hianime_id` returns. -/
structure HianimeMatch where
  id : Option String
  title : String
  poster : Option String
deriving DecidableEq

/-- The matching loop of `resolve_hianime_id` (lines 102-110), with the
query already normalized to `q`.  On a hit the source evaluates
`a.get("title").strip()` (raising `AttributeError` when the attribute is
absent, possible only for an empty `q`) and then the poster lookup
`a.select_one("img")["data-src"]` (raising `KeyError` when the `img` has
no `data-src`). -/
def matchAnchors (q : String) : List Anchor → Except String (Option HianimeMatch)
  | [] => Except.ok none
  | a :: rest =>
    if pyLower (pyStrip (a.title.getD "")) == q then
      match a.title with
      | none => Except.error "AttributeError"
      | some ttl =>
        match a.img with
        | none => Except.ok (some { id := a.dataId, title := pyStrip ttl, poster := none })
        | some none => Except.error "KeyError: data-src"
        | some (some u) => Except.ok (some { id := a.dataId, title := pyStrip ttl, poster := some u })
    else matchAnchors q rest

/-- `resolve_hianime_id(query)` given the parsed search page: `html = none`
models a falsy `proxy_get` result (immediate `None`); otherwise
`q = query.strip().lower()` is computed (raising `AttributeError` when the
query — `meta["title"]` — is not a string) and the anchors are scanned.
(Python `strip`/`lower` are modelled by `pyStrip`/`pyLower`;
the claims only exercise ASCII.) -/
def resolve_hianime_id (html : Option (List Anchor)) (query : PyJson) :
    Except String (Option HianimeMatch) :=
  match html with
  | none => Except.ok none
  | some anchors =>
    match query with
    | .str s => matchAnchors (pyLower (pyStrip s)) anchors
    | _ => Except.error "AttributeError"

/-- An episode anchor (`a.ssl-item.ep-item`) as the scraper reads it:
`data-id`, `data-number`, and the text of the nested `.ep-name` element
(`none` = element absent). -/
structure EpAnchor where
  dataId : Option String
  dataNumber : Option String
  epName : Option String
deriving DecidableEq

/-- One entry of the episode list `fetch_episode_list` builds. -/
structure Episode where
  episodeId : Option String
  number : Int
  title : String
  streaming : String
deriving DecidableEq

/-- The per-anchor extraction of `fetch_episode_list` lines 130-135.
`int(a.get("data-number") or 0)`: an absent or empty (falsy) attribute
becomes `int(0) = 0`, any other string goes through `int(...)`, which
raises `ValueError` when it is not a decimal integer. -/
def extractEpisode (a : EpAnchor) : Except String Episode :=
  (match a.dataNumber with
   | none => Except.ok 0
   | some s => if s == "" then Except.ok 0 else pyIntOfString s).bind
  (fun num => Except.ok
    { episodeId := a.dataId
      number := num
      title := pyStrip (a.epName.getD "")
      streaming := "https://megaplay.buzz/stream/s-2/" ++ optStr a.dataId ++ "/sub" })

/-- The episode dict as serialized into `episodes.json`. -/
def Episode.toJson (e : Episode) : PyJson :=
  .obj [("episodeId", match e.episodeId with | none => .null | some s => .str s),
    ("number", .int e.number), ("title", .str e.title),
    ("streaming", .str e.streaming)]

/-- What `fetch_episode_list` observes for one `anime_data_id`: the
proxied fetch was falsy (`fetchFail`), the text was not JSON
(`parseFail`), the JSON envelope had a falsy `status` or `html`
(`emptyEnvelope`), or the parsed `html` fragment yielded these episode
anchors (`page`). -/
inductive EpListResponse where
  | fetchFail
  | parseFail
  | emptyEnvelope
  | page (anchors : List EpAnchor)
deriving DecidableEq

/-- The ascending-by-number comparison `key=lambda x: x["number"]`. -/
def epLe (a b : Episode) : Prop := a.number ≤ b.number

instance : DecidableRel epLe := fun a b => Int.decLe a.number b.number

/-- `fetch_episode_list(anime_data_id)` given the observed response: the
three degenerate responses return `[]`; otherwise every anchor is
extracted (an uncaught `ValueError` propagates) and the list is returned
sorted ascending by episode number (`sorted` is a stable sort, modelled by
insertion sort, which is also stable). -/
def fetch_episode_list (resp : EpListResponse) : Except String (List Episode) :=
  match resp with
  | .fetchFail => Except.ok []
  | .parseFail => Except.ok []
  | .emptyEnvelope => Except.ok []
  | .page anchors =>
    match anchors.mapM extractEpisode with
    | .error e => Except.error e
    | .ok eps => Except.ok (List.insertionSort epLe eps)

/-- One `(mal_id, title)` pair collected by `fetch_all_anime`. -/
structure CatalogEntry where
  mal_id : Int
  title : String
deriving DecidableEq

/-- The `while True` pagination loop of `fetch_all_anime`, against an
honestly paginated catalog: page `p` of the API returns entries
`(p-1)*25 .. p*25` of `catalog` (the API is asked for 25-item pages
ordered by `mal_id`).  An empty page models the missing/empty `data`
field and stops; otherwise the whole page is appended and the loop stops
as soon as the accumulated count has reached `limit`.  `fuel` bounds the
recursion and is chosen large enough to never run out. -/
def fetchAllLoop (catalog : List CatalogEntry) (limit : Nat) :
    Nat → Nat → List CatalogEntry → List CatalogEntry
  | 0, _, acc => acc
  | fuel + 1, page, acc =>
    if (catalog.drop ((page - 1) * 25)).take 25 = [] then acc
    else if limit ≤ (acc ++ (catalog.drop ((page - 1) * 25)).take 25).length then
      acc ++ (catalog.drop ((page - 1) * 25)).take 25
    else fetchAllLoop catalog limit fuel (page + 1) (acc ++ (catalog.drop ((page - 1) * 25)).take 25)

/-- `fetch_all_anime(limit)` against an honestly paginated catalog,
starting at page 1 with an empty accumulator. -/
def fetch_all_anime (catalog : List CatalogEntry) (limit : Nat) : List CatalogEntry :=
  fetchAllLoop catalog limit (catalog.length + 1) 1 []

/-- `proxy_get(url, retries, delay)` given the outcome of each transport
attempt (`transport i` = what attempt number `i` yields; `none` = a
`requests.RequestException`).  The result is paired with the number of
attempts actually performed.  `go attempt fuel` runs attempts
`attempt, attempt+1, ...` with `fuel` attempts remaining. -/
def proxyGetGo (transport : Nat → Option String) : Nat → Nat → Option String × Nat
  | attempt, 0 => (none, attempt - 1)
  | attempt, fuel + 1 =>
    match transport attempt with
    | some t => (some t, attempt)
    | none => proxyGetGo transport (attempt + 1) fuel

/-- `proxy_get`: `for attempt in range(1, retries + 1)`, returning the
first successful body, or `None` after exhausting all `retries`
attempts; the second component counts the attempts made. -/
def proxy_get (transport : Nat → Option String) (retries : Nat) : Option String × Nat :=
  proxyGetGo transport 1 retries

/-- The external responses one pipeline run can observe: the Jikan detail
response per `mal_id`, the parsed search page per interpolated query
string (`none` = falsy `proxy_get` result), and the episode-list response
per interpolated `anime_data_id`. -/
structure World where
  detailResp : Int → Except Unit PyJson
  searchHtml : String → Option (List Anchor)
  episodeResp : String → EpListResponse

/-- `fetch_full_anime(mal_id, title)` (lines 139-160) against the world
`w`, threading the filesystem; the second component is `some msg` when an
uncaught Python exception escapes (leaving the filesystem as it was at the
raise, which is always before any write).  Control flow follows the
source: resolve details (return silently on `None`), cross-reference by
the resolved title, list episodes only on a match, compute the folder
name (`meta['title'].replace(' ', '_')` raises `AttributeError` on a
non-string title), then always write `meta.json` and write
`episodes.json` only for a non-empty list. -/
def fetch_full_anime (w : World) (mal_id : Int) (title : String) (fs : FS) :
    FS × Option String :=
  match fetch_jikan_details mal_id (w.detailResp mal_id) with
  | .error e => (fs, some e)
  | .ok none => (fs, none)
  | .ok (some meta) =>
    match resolve_hianime_id (w.searchHtml (pyStr meta.title)) meta.title with
    | .error e => (fs, some e)
    | .ok info =>
      match (match info with
             | some i => fetch_episode_list (w.episodeResp (optStr i.id))
             | none => Except.ok []) with
      | .error e => (fs, some e)
      | .ok eps =>
        match meta.title with
        | .str t =>
          let folderName :=
            match info with
            | some i => pyReplaceSpace t ++ "-" ++ optStr i.id
            | none => pyReplaceSpace t ++ "-" ++ toString mal_id
          let folder := "anime_data/" ++ folderName
          let fs1 := makedirs fs folder
          let fs2 := save_json meta.toJson folder "meta.json" fs1
          let fs3 :=
            if eps.isEmpty then fs2
            else save_json (.list (eps.map Episode.toJson)) folder "episodes.json" fs2
          (fs3, none)
        | _ => (fs, some "AttributeError")

/-- The `__main__` driving loop: `fetch_full_anime` for every enumerated
entry in order, with no exception handling — an uncaught exception from
one entry aborts the whole loop. -/
def run_main (w : World) (entries : List CatalogEntry) (fs : FS) : FS × Option String :=
  match entries with
  | [] => (fs, none)
  | e :: rest =>
    match fetch_full_anime w e.mal_id e.title fs with
    | (fs2, none) => run_main w rest fs2
    | (fs2, some err) => (fs2, some err)

/-- A world whose detail response for every identifier is well-formed JSON
whose `data` record lacks the `images` object — processing any entry then
raises `KeyError` out of `fetch_jikan_details`. -/
def crashWorld : World :=
  ⟨fun _ => Except.ok (.obj [("data", .obj [("title", .str "A")])]),
   fun _ => none, fun _ => .fetchFail⟩

/-- A catalog of 25 distinct entries with ascending identifiers 1..25 —
exactly one full API page. -/
def catalog25 : List CatalogEntry :=
  (List.range 25).map (fun i => ⟨(i : Int) + 1, ""⟩)

/-- A world in which entry 1 resolves a full metadata record and finds an
exact search match, but the matched title's episode page contains an
anchor whose `data-number` is the non-numeric string "x". -/
def resolvedCrashWorld : World :=
  ⟨fun _ => Except.ok (.obj [("data",
      .obj [("title", .str "A"), ("images", .obj [("jpg", .str "u")])])]),
   fun s => if s = "A" then some [⟨some "A", some "7", none⟩] else none,
   fun _ => .page [⟨some "e", some "x", none⟩]⟩

/-- A world in which entry 1 resolves a full metadata record but the
search fetch yields no content, so there is no match and no episode data:
only `meta.json` is written. -/
def noMatchWorld : World :=
  ⟨fun _ => Except.ok (.obj [("data",
      .obj [("title", .str "A"), ("images", .obj [("jpg", .str "u")])])]),
   fun _ => none, fun _ => .fetchFail⟩

instance : IsTotal Episode epLe :=
  ⟨fun a b => Int.le_total a.number b.number⟩

instance : IsTrans Episode epLe :=
  ⟨fun _ _ _ hab hbc => le_trans hab hbc⟩


/-- C3: the claim says `fetch_jikan_details` never propagates an exception
for any raw detail response, but the record normalization runs outside the
`try` block: a response whose `data` record lacks the `images` object makes
line 88 raise `KeyError`, which propagates to the caller. -/
theorem fetch_jikan_details_missing_images_raises :
    fetch_jikan_details 1 (Except.ok (.obj [("data", .obj [("title", .str "A")])])) =
      Except.error "KeyError: images" := rfl

/-- C4: the claim says the episode-number extraction assigns 0 when the
`data-number` attribute is unparseable and never raises, but
`int(a.get("data-number") or 0)` only defaults a missing/empty attribute:
a non-numeric non-empty string such as `"abc"` reaches `int("abc")`, which
raises `ValueError`. -/
theorem fetch_episode_list_nonnumeric_number_raises :
    fetch_episode_list (.page [⟨some "e1", some "abc", none⟩]) =
      Except.error "ValueError" := rfl

/-- C2: the claim says no failure while processing one catalog entry can
abort processing of subsequent entries, but neither `fetch_full_anime` nor
the `__main__` loop catches exceptions: with two catalog entries, the
`KeyError` raised while processing the first aborts the whole loop and the
second entry is never processed (no output is written at all). -/
theorem run_main_aborts_on_first_entry_failure :
    run_main crashWorld [⟨1, "A"⟩, ⟨2, "B"⟩] emptyFS =
      (emptyFS, some "KeyError: images") := rfl

/-- C7: when every transport attempt fails, `proxy_get` with the default
retry count 3 performs exactly 3 attempts and returns `None` instead of
raising. -/
theorem proxy_get_exhausts_retries (transport : Nat → Option String)
    (h : ∀ i, transport i = none) :
    proxy_get transport 3 = (none, 3) := by
  simp [proxy_get, proxyGetGo, h]

/-- C7 witness: the always-failing transport. -/
theorem proxy_get_exhausts_retries_witness :
    (∀ i : Nat, (fun _ : Nat => (none : Option String)) i = none) ∧
      proxy_get (fun _ => none) 3 = (none, 3) :=
  ⟨fun _ => rfl, proxy_get_exhausts_retries (fun _ => none) (fun _ => rfl)⟩

/-- C8: `save_json` is idempotent — writing the same structure to the same
folder and filename twice leaves exactly the bytes the first write left
(the serialization is a pure function of the structure and the second
write overwrites the first). -/
theorem save_json_idempotent (data : PyJson) (folder filename : String) (fs : FS) :
    fileContent (save_json data folder filename (save_json data folder filename fs))
        folder filename =
      fileContent (save_json data folder filename fs) folder filename := by
  simp [fileContent, save_json, List.find?]

/-- C6 counterexample: the claim says `resolve_hianime_id` always returns
the first exact match or `None`, but when the trimmed-lowercased query is
empty it matches an anchor with no `title` attribute (whose normalized
title is also the empty string), and building the result then evaluates
`a.get("title").strip()` — `None.strip()` — which raises `AttributeError`
instead of returning. -/
theorem resolve_hianime_id_crashes_on_titleless_match :
    resolve_hianime_id (some [⟨none, some "42", none⟩]) (.str " ") =
      Except.error "AttributeError" := rfl

/-- C6 (amended): for anchors that carry a `title` attribute and whose
`img` element (when present) carries `data-src` — which is every anchor
the crash cases excepted — `resolve_hianime_id` returns exactly the first
anchor whose display title, trimmed and lowercased, equals the
trimmed-lowercased query (no partial matches), and `None` when no anchor
matches exactly. -/
theorem resolve_hianime_id_first_exact_match (query : String) (anchors : List Anchor)
    (hw : ∀ a ∈ anchors, a.title ≠ none ∧ a.img ≠ some none) :
    resolve_hianime_id (some anchors) (.str query) =
      Except.ok ((anchors.find?
          (fun a => pyLower (pyStrip (a.title.getD "")) == pyLower (pyStrip query))).map
        (fun a => { id := a.dataId, title := pyStrip (a.title.getD ""), poster := a.img.bind id })) := by
  show matchAnchors (pyLower (pyStrip query)) anchors = _
  induction anchors with
  | nil => rfl
  | cons a rest ih =>
    obtain ⟨hta, hia⟩ := hw a (List.mem_cons_self a rest)
    have hrest := fun x hx => hw x (List.mem_cons_of_mem a hx)
    by_cases hm : (pyLower (pyStrip (a.title.getD "")) == pyLower (pyStrip query)) = true
    · obtain ⟨ttl, httl⟩ := Option.ne_none_iff_exists'.mp hta
      have hmeq : pyLower (pyStrip ttl) = pyLower (pyStrip query) := by
        have hb := hm
        rw [httl] at hb
        simpa using eq_of_beq hb
      simp only [List.find?_cons, hm]
      simp only [matchAnchors, hm, if_true, httl]
      match hi : a.img with
      | none => simp [hmeq, hi, httl]
      | some none => exact absurd hi hia
      | some (some u) => simp [hmeq, hi, httl]
    · simp only [List.find?_cons, Bool.eq_false_iff.mpr hm]
      simp only [matchAnchors, Bool.eq_false_iff.mpr hm, if_false]
      exact ih hrest

/-- C6 witness: "Attack on Titan " matches the anchor titled
"attack on titan" (trimmed, case-insensitive) and not the anchor titled
"attack on titan!" that precedes it. -/
theorem resolve_hianime_id_first_exact_match_witness :
    (∀ a ∈ [(⟨some "attack on titan!", some "1", none⟩ : Anchor),
            ⟨some "attack on titan", some "42", some (some "p.jpg")⟩],
        a.title ≠ none ∧ a.img ≠ some none) ∧
      resolve_hianime_id
        (some [⟨some "attack on titan!", some "1", none⟩,
               ⟨some "attack on titan", some "42", some (some "p.jpg")⟩])
        (.str "Attack on Titan ") =
        Except.ok (some ⟨some "42", "attack on titan", some "p.jpg"⟩) :=
  ⟨by decide,
   (resolve_hianime_id_first_exact_match "Attack on Titan "
     [⟨some "attack on titan!", some "1", none⟩,
      ⟨some "attack on titan", some "42", some (some "p.jpg")⟩] (by decide)).trans rfl⟩

/-- C5: whatever the markup order of the episode anchors, whenever
`fetch_episode_list` returns a list it is sorted ascending by episode
number (episodes with the defaulted number 0 therefore sort first). -/
theorem fetch_episode_list_sorted (resp : EpListResponse) (eps : List Episode)
    (h : fetch_episode_list resp = Except.ok eps) :
    eps.Pairwise epLe := by
  cases resp with
  | fetchFail =>
    simp only [fetch_episode_list] at h
    cases h
    exact List.Pairwise.nil
  | parseFail =>
    simp only [fetch_episode_list] at h
    cases h
    exact List.Pairwise.nil
  | emptyEnvelope =>
    simp only [fetch_episode_list] at h
    cases h
    exact List.Pairwise.nil
  | page anchors =>
    simp only [fetch_episode_list] at h
    cases hm : anchors.mapM extractEpisode with
    | error e => rw [hm] at h; cases h
    | ok l =>
      rw [hm] at h
      cases h
      exact List.sorted_insertionSort epLe l

/-- C5 witness: markup order 3, 1, 2 comes back as 1, 2, 3. -/
theorem fetch_episode_list_sorted_witness :
    fetch_episode_list
        (.page [⟨some "e3", some "3", some "T3"⟩, ⟨some "e1", some "1", some "T1"⟩,
                ⟨some "e2", some "2", none⟩]) =
      Except.ok [⟨some "e1", 1, "T1", "https://megaplay.buzz/stream/s-2/e1/sub"⟩,
                 ⟨some "e2", 2, "", "https://megaplay.buzz/stream/s-2/e2/sub"⟩,
                 ⟨some "e3", 3, "T3", "https://megaplay.buzz/stream/s-2/e3/sub"⟩] ∧
      List.Pairwise epLe
        [(⟨some "e1", 1, "T1", "https://megaplay.buzz/stream/s-2/e1/sub"⟩ : Episode),
         ⟨some "e2", 2, "", "https://megaplay.buzz/stream/s-2/e2/sub"⟩,
         ⟨some "e3", 3, "T3", "https://megaplay.buzz/stream/s-2/e3/sub"⟩] :=
  ⟨rfl,
   fetch_episode_list_sorted
     (.page [⟨some "e3", some "3", some "T3"⟩, ⟨some "e1", some "1", some "T1"⟩,
             ⟨some "e2", some "2", none⟩]) _ rfl⟩

/-- Reduction of `Except.bind` on a success value. -/
theorem except_bind_ok {α β ε : Type} (a : α) (f : α → Except ε β) :
    (Except.ok a : Except ε α).bind f = f a := rfl

/-- Reduction of `Except.bind` on an error value. -/
theorem except_bind_error {α β ε : Type} (e : ε) (f : α → Except ε β) :
    (Except.error e : Except ε α).bind f = Except.error e := rfl

/-- C10: in the normalized record, the canonical title is the English
title exactly when that field is present and truthy (`or` tests Python
truthiness, so `null` and `""` also fall back), and the default `title`
field otherwise. -/
theorem fetch_jikan_details_title_fallback (m : Int) (d : List (String × PyJson))
    (t : PyJson) (meta : Meta)
    (ht : dictGet d "title" = some t)
    (h : fetch_jikan_details m (Except.ok (.obj [("data", .obj d)])) = Except.ok (some meta)) :
    meta.title = (match dictGet d "title_english" with
      | some v => if pyTruthy v then v else t
      | none => t) := by
  have h2 : (buildMeta m (.obj d)).map some = Except.ok (some meta) := h
  cases hct : computeTitle d with
  | error e => simp [buildMeta, hct, except_bind_error, Except.map] at h2
  | ok title0 =>
    cases hs : namesOf d "studios" with
    | error e =>
      simp [buildMeta, hct, hs, except_bind_ok, except_bind_error, Except.map] at h2
    | ok studios =>
      cases hg : namesOf d "genres" with
      | error e =>
        simp [buildMeta, hct, hs, hg, except_bind_ok, except_bind_error, Except.map] at h2
      | ok genres =>
        cases hth : namesOf d "themes" with
        | error e =>
          simp [buildMeta, hct, hs, hg, hth, except_bind_ok, except_bind_error, Except.map] at h2
        | ok themes =>
          cases hde : namesOf d "demographics" with
          | error e =>
            simp [buildMeta, hct, hs, hg, hth, hde, except_bind_ok, except_bind_error,
              Except.map] at h2
          | ok demographics =>
            cases him : (keyIndex d "images").bind (fun im => pyIndex im "jpg") with
            | error e =>
              simp [buildMeta, hct, hs, hg, hth, hde, him, except_bind_ok, except_bind_error,
                Except.map] at h2
            | ok images =>
              simp only [buildMeta, hct, hs, hg, hth, hde, him, except_bind_ok,
                Except.map, Except.ok.injEq, Option.some.injEq] at h2
              have htitle : meta.title = title0 := by rw [← h2]
              rw [htitle]
              unfold computeTitle at hct
              cases he : dictGet d "title_english" with
              | none =>
                rw [he] at hct
                simp only [keyIndex, ht] at hct
                exact (Except.ok.inj hct).symm
              | some v =>
                rw [he] at hct
                by_cases hv : pyTruthy v = true
                · simp only [hv, if_true] at hct
                  simp only [hv, if_true]
                  exact (Except.ok.inj hct).symm
                · simp only [Bool.eq_false_iff.mpr hv, if_false, keyIndex, ht] at hct
                  simp only [Bool.eq_false_iff.mpr hv, if_false]
                  exact (Except.ok.inj hct).symm

/-- C10 witness: an empty-string English title is falsy, so the canonical
title falls back to the default title "D". -/
theorem fetch_jikan_details_title_fallback_witness :
    dictGet [("title_english", PyJson.str ""), ("title", PyJson.str "D"),
        ("images", PyJson.obj [("jpg", PyJson.null)])] "title" = some (PyJson.str "D") ∧
    fetch_jikan_details 5 (Except.ok (.obj [("data",
        .obj [("title_english", PyJson.str ""), ("title", PyJson.str "D"),
              ("images", PyJson.obj [("jpg", PyJson.null)])])])) =
      Except.ok (some (Meta.mk 5 (PyJson.str "D") none none none none none none none none
        none none none none none [] [] [] [] PyJson.null)) ∧
    (Meta.mk 5 (PyJson.str "D") none none none none none none none none
        none none none none none [] [] [] [] PyJson.null).title = PyJson.str "D" :=
  ⟨rfl, rfl,
   fetch_jikan_details_title_fallback 5
     [("title_english", PyJson.str ""), ("title", PyJson.str "D"),
      ("images", PyJson.obj [("jpg", PyJson.null)])]
     (PyJson.str "D")
     (Meta.mk 5 (PyJson.str "D") none none none none none none none none
       none none none none none [] [] [] [] PyJson.null) rfl rfl⟩

/-- Loop invariant of the pagination loop: entering the iteration for
`page` with the first `(page-1)*25` catalog entries accumulated, with the
limit not yet reached and enough fuel, the loop ends up returning the
shortest whole-page prefix of the catalog whose length reaches the limit
(the whole catalog if it runs out first). -/
theorem fetchAllLoop_spec (catalog : List CatalogEntry) (limit : Nat) :
    ∀ fuel page, 1 ≤ page → limit ≤ catalog.length →
      ((page - 1) * 25 < limit ∨ page = 1) →
      limit < fuel + (page - 1) * 25 →
      fetchAllLoop catalog limit fuel page (catalog.take ((page - 1) * 25)) =
        catalog.take (min catalog.length (25 * max 1 ((limit + 24) / 25))) := by
  intro fuel
  induction fuel with
  | zero =>
    intro page h1 hlim hinv hfuel
    exfalso
    rcases hinv with hlt | hpage
    · omega
    · subst hpage; omega
  | succ fuel ih =>
    intro page h1 hlim hinv hfuel
    by_cases hpd : (catalog.drop ((page - 1) * 25)).take 25 = []
    · have hlen0 : catalog.length ≤ (page - 1) * 25 := by
        have hh := congrArg List.length hpd
        rw [List.length_take, List.length_drop] at hh
        simp only [List.length_nil] at hh
        omega
      rcases hinv with hlt | hpage
      · exfalso; omega
      · subst hpage
        have hc0 : catalog.length = 0 := by omega
        have hl0 : limit = 0 := by omega
        have hcat : catalog = [] := List.length_eq_zero.mp hc0
        subst hcat
        subst hl0
        simp [fetchAllLoop]
    · have hlt : (page - 1) * 25 < catalog.length := by
        by_contra hh
        apply hpd
        have hlen : ((catalog.drop ((page - 1) * 25)).take 25).length = 0 := by
          rw [List.length_take, List.length_drop]
          omega
        exact List.length_eq_zero.mp hlen
      have hacc2 : catalog.take ((page - 1) * 25) ++ (catalog.drop ((page - 1) * 25)).take 25
          = catalog.take ((page - 1) * 25 + 25) := (List.take_add catalog _ 25).symm
      have hp25 : (page - 1) * 25 + 25 = page * 25 := by omega
      by_cases hstop : limit ≤
          (catalog.take ((page - 1) * 25) ++ (catalog.drop ((page - 1) * 25)).take 25).length
      · have hstop' : limit ≤ min ((page - 1) * 25 + 25) catalog.length := by
          rw [hacc2, List.length_take] at hstop
          exact hstop
        have hstopA : limit ≤ page * 25 :=
          le_trans hstop' (by rw [hp25] at hstop' ⊢; exact Nat.min_le_left _ _)
        simp only [fetchAllLoop]
        rw [if_neg hpd, if_pos hstop, hacc2]
        have hK : 25 * max 1 ((limit + 24) / 25) = page * 25 := by
          rcases hinv with hl | hp
          · have hq : (limit + 24) / 25 = page := by omega
            rw [hq, max_eq_right h1]
            omega
          · subst hp
            simp only [Nat.sub_self, Nat.zero_mul] at hstopA ⊢
            by_cases hl0 : limit = 0
            · subst hl0; norm_num
            · have hq : (limit + 24) / 25 = 1 := by omega
              rw [hq]; norm_num
        rw [hK, hp25]
        rcases Nat.le_total (page * 25) catalog.length with hle | hge
        · rw [min_eq_right hle]
        · rw [min_eq_left hge, List.take_of_length_le hge, List.take_length]
      · simp only [fetchAllLoop]
        rw [if_neg hpd, if_neg hstop, hacc2]
        have hacclen : min ((page - 1) * 25 + 25) catalog.length < limit := by
          rw [hacc2, List.length_take] at hstop
          omega
        have hcont : page * 25 < limit := by
          rcases Nat.le_total ((page - 1) * 25 + 25) catalog.length with hle | hge
          · rw [min_eq_left hle] at hacclen; omega
          · rw [min_eq_right hge] at hacclen; omega
        have heq : (page - 1) * 25 + 25 = (page + 1 - 1) * 25 := by omega
        rw [heq]
        exact ih (page + 1) (by omega) hlim (Or.inl (by omega)) (by omega)

/-- C1 counterexample: with 25 available entries and limit 1 ≤ 25, the
enumerator appends the whole first page before checking the limit, so it
returns 25 entries, not min(1, 25) = 1. -/
theorem fetch_all_anime_not_exactly_min :
    (fetch_all_anime catalog25 1).length = 25 ∧ min 1 catalog25.length = 1 ∧
      (fetch_all_anime catalog25 1).length ≠ min 1 catalog25.length :=
  ⟨rfl, rfl, by decide⟩

/-- C1 (amended): for every limit L ≤ available, the enumerator returns
the prefix of the catalog consisting of whole 25-entry pages up to the
first page at which the accumulated count reaches L — that is,
min(available, 25·max(1, ⌈L/25⌉)) entries rather than min(L, available) —
and, the pages being served in ascending-identifier order, the result is
ascending with no duplicate identifiers whenever the catalog is. -/
theorem fetch_all_anime_whole_pages (catalog : List CatalogEntry) (limit : Nat)
    (h : limit ≤ catalog.length) :
    fetch_all_anime catalog limit =
      catalog.take (min catalog.length (25 * max 1 ((limit + 24) / 25))) ∧
    (catalog.Pairwise (fun a b => a.mal_id < b.mal_id) →
      (fetch_all_anime catalog limit).Pairwise (fun a b => a.mal_id < b.mal_id)) ∧
    ((catalog.map (fun e => e.mal_id)).Nodup →
      ((fetch_all_anime catalog limit).map (fun e => e.mal_id)).Nodup) := by
  have hmain : fetch_all_anime catalog limit =
      catalog.take (min catalog.length (25 * max 1 ((limit + 24) / 25))) := by
    have hs := fetchAllLoop_spec catalog limit (catalog.length + 1) 1 (le_refl 1) h
      (Or.inr rfl) (by omega)
    simpa using hs
  refine ⟨hmain, ?_, ?_⟩
  · intro hp
    rw [hmain]
    exact hp.sublist (List.take_sublist _ _)
  · intro hn
    rw [hmain]
    exact hn.sublist ((List.take_sublist _ _).map _)

/-- C1 witness: the amended statement evaluated on the 25-entry ascending
catalog with limit 1 — one whole page comes back, ascending, no
duplicates. -/
theorem fetch_all_anime_whole_pages_witness :
    1 ≤ catalog25.length ∧
      (fetch_all_anime catalog25 1 =
        catalog25.take (min catalog25.length (25 * max 1 ((1 + 24) / 25))) ∧
      (catalog25.Pairwise (fun a b => a.mal_id < b.mal_id) →
        (fetch_all_anime catalog25 1).Pairwise (fun a b => a.mal_id < b.mal_id)) ∧
      ((catalog25.map (fun e => e.mal_id)).Nodup →
        ((fetch_all_anime catalog25 1).map (fun e => e.mal_id)).Nodup)) :=
  ⟨by decide, fetch_all_anime_whole_pages catalog25 1 (by decide)⟩

/-- `makedirs` never touches file contents. -/
theorem makedirs_files (fs : FS) (f : String) : (makedirs fs f).files = fs.files := by
  unfold makedirs
  split <;> rfl

/-- After `makedirs fs f` the directory `f` exists. -/
theorem mem_makedirs_dirs (fs : FS) (f : String) : f ∈ (makedirs fs f).dirs := by
  unfold makedirs
  split
  · assumption
  · exact List.mem_cons_self _ _

/-- `makedirs` never removes an existing directory. -/
theorem mem_makedirs_dirs_of_mem (fs : FS) (f g : String) (h : f ∈ fs.dirs) :
    f ∈ (makedirs fs g).dirs := by
  unfold makedirs
  split
  · exact h
  · exact List.mem_cons_of_mem _ h

/-- The directories after `save_json` are those after its `makedirs`. -/
theorem save_json_dirs (data : PyJson) (folder filename : String) (fs : FS) :
    (save_json data folder filename fs).dirs = (makedirs fs folder).dirs := rfl

/-- `save_json` prepends exactly one file binding. -/
theorem save_json_files (data : PyJson) (folder filename : String) (fs : FS) :
    (save_json data folder filename fs).files =
      ((folder, filename), pyDumps data) :: fs.files := by
  show ((folder, filename), pyDumps data) :: (makedirs fs folder).files = _
  rw [makedirs_files]

/-- `makedirs` changes no file content. -/
theorem fileContent_makedirs (fs : FS) (g folder filename : String) :
    fileContent (makedirs fs g) folder filename = fileContent fs folder filename := by
  rw [fileContent, makedirs_files, fileContent]

/-- Reading back the file a `save_json` just wrote yields its serialization. -/
theorem fileContent_save_same (data : PyJson) (folder filename : String) (fs : FS) :
    fileContent (save_json data folder filename fs) folder filename = some (pyDumps data) := by
  rw [fileContent, save_json_files]
  simp [List.find?]

/-- A `save_json` to one filename leaves every other filename in the same folder unchanged. -/
theorem fileContent_save_other (data : PyJson) (folder filename filename2 : String)
    (fs : FS) (hne : (filename == filename2) = false) :
    fileContent (save_json data folder filename fs) folder filename2 =
      fileContent fs folder filename2 := by
  have hkey : (((folder, filename) : String × String) == (folder, filename2)) = false := by
    rw [beq_eq_false_iff_ne]
    intro hp
    exact ne_of_beq_false hne (congrArg Prod.snd hp)
  rw [fileContent, save_json_files, fileContent]
  simp [List.find?, hkey]

/-- C9 (amended): on every execution of `fetch_full_anime` that completes
without an uncaught exception, the output invariant holds: if the metadata
was not resolved the filesystem is untouched (so no output directory is
created), and if it was resolved the output folder exists with `meta.json`
holding the serialized record — absence of a cross-reference match or an
empty episode list does not prevent this — and `episodes.json` is written
exactly when the episode list is non-empty.  (When an exception is raised
after resolution — see the counterexample — nothing is persisted even
though the metadata was resolved, which is what the original iff misses.) -/
theorem fetch_full_anime_output_invariant (w : World) (mal_id : Int) (title : String) (fs : FS)
    (h : (fetch_full_anime w mal_id title fs).2 = none) :
    (resolved (fetch_jikan_details mal_id (w.detailResp mal_id)) = false →
      (fetch_full_anime w mal_id title fs).1 = fs) ∧
    (∀ meta, fetch_jikan_details mal_id (w.detailResp mal_id) = Except.ok (some meta) →
      ∃ folder episodes,
        folder ∈ (fetch_full_anime w mal_id title fs).1.dirs ∧
        fileContent (fetch_full_anime w mal_id title fs).1 folder "meta.json" =
          some (pyDumps meta.toJson) ∧
        (episodes = [] →
          fileContent (fetch_full_anime w mal_id title fs).1 folder "episodes.json" =
            fileContent fs folder "episodes.json") ∧
        (episodes ≠ [] →
          fileContent (fetch_full_anime w mal_id title fs).1 folder "episodes.json" =
            some (pyDumps (PyJson.list (episodes.map Episode.toJson))))) := by
  cases hdet : fetch_jikan_details mal_id (w.detailResp mal_id) with
  | error e => simp [fetch_full_anime, hdet] at h
  | ok o =>
    cases o with
    | none =>
      constructor
      · intro _
        simp [fetch_full_anime, hdet]
      · intro meta hm
        exact absurd (Except.ok.inj hm) (by simp)
    | some meta0 =>
      constructor
      · intro hfalse
        simp [resolved] at hfalse
      · intro meta hm
        have hmeta : meta0 = meta := Option.some.inj (Except.ok.inj hm)
        subst hmeta
        cases hres : resolve_hianime_id (w.searchHtml (pyStr meta0.title)) meta0.title with
        | error e => simp [fetch_full_anime, hdet, hres] at h
        | ok info =>
          cases hep : (match info with
              | some i => fetch_episode_list (w.episodeResp (optStr i.id))
              | none => Except.ok []) with
          | error e =>
            simp only [fetch_full_anime, hdet, hres, hep] at h
            exact absurd h (by simp)
          | ok eps =>
            cases htit : meta0.title with
            | str t =>
              rw [htit] at hres
              cases info with
              | none =>
                have heps0 : eps = [] := (Except.ok.inj hep).symm
                subst heps0
                have hr : fetch_full_anime w mal_id title fs =
                    (save_json meta0.toJson
                        ("anime_data/" ++ (pyReplaceSpace t ++ "-" ++ toString mal_id))
                        "meta.json"
                        (makedirs fs
                          ("anime_data/" ++ (pyReplaceSpace t ++ "-" ++ toString mal_id))),
                      none) := by
                  simp only [fetch_full_anime, hdet, hres, htit]
                  rfl
                rw [hr]
                refine ⟨"anime_data/" ++ (pyReplaceSpace t ++ "-" ++ toString mal_id), [],
                  ?_, ?_, ?_, ?_⟩
                · rw [save_json_dirs]
                  exact mem_makedirs_dirs_of_mem _ _ _ (mem_makedirs_dirs _ _)
                · exact fileContent_save_same _ _ _ _
                · intro _
                  rw [fileContent_save_other _ _ _ _ _ (by rfl), fileContent_makedirs]
                · intro hne
                  exact absurd rfl hne
              | some i =>
                have hep2 : fetch_episode_list (w.episodeResp (optStr i.id)) = Except.ok eps := hep
                have hr : fetch_full_anime w mal_id title fs =
                    (if eps.isEmpty then
                        save_json meta0.toJson
                          ("anime_data/" ++ (pyReplaceSpace t ++ "-" ++ optStr i.id))
                          "meta.json"
                          (makedirs fs
                            ("anime_data/" ++ (pyReplaceSpace t ++ "-" ++ optStr i.id)))
                      else
                        save_json (.list (eps.map Episode.toJson))
                          ("anime_data/" ++ (pyReplaceSpace t ++ "-" ++ optStr i.id))
                          "episodes.json"
                          (save_json meta0.toJson
                            ("anime_data/" ++ (pyReplaceSpace t ++ "-" ++ optStr i.id))
                            "meta.json"
                            (makedirs fs
                              ("anime_data/" ++ (pyReplaceSpace t ++ "-" ++ optStr i.id)))),
                      none) := by
                  simp only [fetch_full_anime, hdet, hres, hep2, htit]
                rw [hr]
                refine ⟨"anime_data/" ++ (pyReplaceSpace t ++ "-" ++ optStr i.id), eps, ?_⟩
                by_cases heps : eps.isEmpty
                · have heq : eps = [] := by
                    cases eps
                    · rfl
                    · exact absurd heps (by simp)
                  rw [if_pos heps]
                  refine ⟨?_, ?_, ?_, ?_⟩
                  · rw [save_json_dirs]
                    exact mem_makedirs_dirs_of_mem _ _ _ (mem_makedirs_dirs _ _)
                  · exact fileContent_save_same _ _ _ _
                  · intro _
                    rw [fileContent_save_other _ _ _ _ _ (by rfl), fileContent_makedirs]
                  · intro hne
                    exact absurd heq hne
                · have hne : eps ≠ [] := by
                    intro hh
                    subst hh
                    exact heps rfl
                  rw [if_neg heps]
                  refine ⟨?_, ?_, ?_, ?_⟩
                  · rw [save_json_dirs]
                    apply mem_makedirs_dirs_of_mem
                    rw [save_json_dirs]
                    exact mem_makedirs_dirs_of_mem _ _ _ (mem_makedirs_dirs _ _)
                  · rw [fileContent_save_other _ _ _ _ _ (by rfl)]
                    exact fileContent_save_same _ _ _ _
                  · intro h0
                    exact absurd h0 hne
                  · intro _
                    exact fileContent_save_same _ _ _ _
            | null =>
              rw [htit] at hres
              simp only [fetch_full_anime, hdet, hres, hep, htit] at h
              exact absurd h (by simp)
            | bool b =>
              rw [htit] at hres
              simp only [fetch_full_anime, hdet, hres, hep, htit] at h
              exact absurd h (by simp)
            | int n =>
              rw [htit] at hres
              simp only [fetch_full_anime, hdet, hres, hep, htit] at h
              exact absurd h (by simp)
            | list xs =>
              rw [htit] at hres
              simp only [fetch_full_anime, hdet, hres, hep, htit] at h
              exact absurd h (by simp)
            | obj kvs =>
              rw [htit] at hres
              simp only [fetch_full_anime, hdet, hres, hep, htit] at h
              exact absurd h (by simp)


/-- C9 counterexample: entry 1's metadata resolves and a match is found,
but the matched title's episode markup carries a non-numeric
`data-number`, so `fetch_full_anime` raises before any write: no output
directory is created even though the metadata was successfully resolved,
refuting the claimed "if and only if". -/
theorem fetch_full_anime_crash_skips_persistence :
    resolved (fetch_jikan_details 1 (resolvedCrashWorld.detailResp 1)) = true ∧
    fetch_full_anime resolvedCrashWorld 1 "A" emptyFS = (emptyFS, some "ValueError") :=
  ⟨rfl, rfl⟩

/-- C9 witness: a crash-free run with resolved metadata and no
cross-reference match — the output directory is created and holds exactly
`meta.json`. -/
theorem fetch_full_anime_output_invariant_witness :
    ((fetch_full_anime noMatchWorld 1 "A" emptyFS).2 = none) ∧
    ((resolved (fetch_jikan_details 1 (noMatchWorld.detailResp 1)) = false →
        (fetch_full_anime noMatchWorld 1 "A" emptyFS).1 = emptyFS) ∧
      (∀ meta, fetch_jikan_details 1 (noMatchWorld.detailResp 1) = Except.ok (some meta) →
        ∃ folder episodes,
          folder ∈ (fetch_full_anime noMatchWorld 1 "A" emptyFS).1.dirs ∧
          fileContent (fetch_full_anime noMatchWorld 1 "A" emptyFS).1 folder "meta.json" =
            some (pyDumps meta.toJson) ∧
          (episodes = [] →
            fileContent (fetch_full_anime noMatchWorld 1 "A" emptyFS).1 folder "episodes.json" =
              fileContent emptyFS folder "episodes.json") ∧
          (episodes ≠ [] →
            fileContent (fetch_full_anime noMatchWorld 1 "A" emptyFS).1 folder "episodes.json" =
              some (pyDumps (PyJson.list (episodes.map Episode.toJson)))))) :=
  ⟨rfl, fetch_full_anime_output_invariant noMatchWorld 1 "A" emptyFS rfl⟩
